import Mathlib

/-!
Verification of the Capybara word-guessing game engine.

The game core lives in a single React component (the solo/multiplayer
hangman page).  Its state is a collection of `useState` hooks; the
transitions are the event handlers `onGuess`, `handlePowerUp` (plus the
`useEffect` that applies the pending power-up), `startGame` and the Reset
button's `onClick`.  We embed that state as the record `GameState` and each
handler as a function `GameState → GameState`, following React's event
semantics: a handler reads the values captured at the start of the event
(stale closure values), `set` calls with a plain value overwrite the queued
state, and `set` calls with a function apply to the most recently queued
value.  Randomness (`Math.random()` choices for power-up grants) is
modelled by a `rand : Nat` parameter used as the chosen index.
-/

namespace Capybara

inductive Mode where
  | solo
  | multi
  deriving DecidableEq, Repr

inductive Phase where
  | setup
  | play
  | finished
  deriving DecidableEq, Repr

/-- Status recorded in `guessed` for a letter: `"correct"` or `"wrong"`. -/
inductive Outcome where
  | correct
  | wrong
  deriving DecidableEq, Repr, BEq

inductive PowerUpKind where
  | doublePoints
  | revealLetter
  | extraLife
  deriving DecidableEq, Repr, BEq

/-- Solo round result: `'win' | 'lose'` (the hook starts at `null`). -/
inductive SoloResult where
  | win
  | lose
  deriving DecidableEq, Repr

/-- The 17 identifiers of the `ACHIEVEMENTS` table in the source. -/
inductive AchievementId where
  | firstWin
  | perfectGame
  | streak5
  | streak10
  | perfectStreak3
  | perfectStreak5
  | perfectStreak10
  | highScore
  | megaScore
  | speedster
  | powerMaster
  | wordsmith
  | scholar
  | multiplierMania
  | detective
  | survivor
  | comeback
  deriving DecidableEq, Repr

/-- The component's `useState` hooks that make up the game state.
`word` is the normalized guessable word (lowercase), `revealed` the boolean
mask of the same length, `guessed` the letter → outcome map (as an
association list in insertion order). -/
structure GameState where
  mode : Mode
  phase : Phase
  players : List String
  nameInput : String
  soloName : String
  currentIdx : Nat
  word : List Char
  displayRaw : String
  meaning : String
  revealed : List Bool
  guessed : List (Char × Outcome)
  winner : Option String
  result : Option SoloResult
  error : Option String
  wordSource : String
  powerUp : Option PowerUpKind
  lives : Int
  score : Int
  streak : Nat
  scoreMultiplier : Nat
  perfectStreak : Nat
  achievements : List AchievementId
  showAchievement : Option AchievementId
  powerUpsUsed : Nat
  wordsCompleted : Nat
  doublePointsUsed : Nat
  revealLetterUsed : Nat
  availablePowerUps : List PowerUpKind
  deriving DecidableEq, Repr

/-- `const MAX_LIVES = 6`. -/
def MAX_LIVES : Int := 6

/-- Initial values of every hook. -/
def initialState : GameState where
  mode := Mode.solo
  phase := Phase.setup
  players := []
  nameInput := ""
  soloName := ""
  currentIdx := 0
  word := []
  displayRaw := ""
  meaning := ""
  revealed := []
  guessed := []
  winner := none
  result := none
  error := none
  wordSource := "global"
  powerUp := none
  lives := MAX_LIVES
  score := 0
  streak := 0
  scoreMultiplier := 1
  perfectStreak := 0
  achievements := []
  showAchievement := none
  powerUpsUsed := 0
  wordsCompleted := 0
  doublePointsUsed := 0
  revealLetterUsed := 0
  availablePowerUps := []

/-- `const POOL = ["doublePoints", "revealLetter", "extraLife"]` (used both
for the starting grant in `startGame` and the reward grant on a solo win). -/
def POOL : List PowerUpKind :=
  [PowerUpKind.doublePoints, PowerUpKind.revealLetter, PowerUpKind.extraLife]

/-- `startGame`, success path: the fetched `{word, meaning, display}` is
passed in (`w` is lowercased as in `String(data.word).toLowerCase()`), and
`rand` stands for the `Math.floor(Math.random() * POOL.length)` choice of
the starting power-up (solo only; multiplayer gets none). -/
def startGame (s : GameState) (w m disp : String) (rand : Nat) : GameState :=
  let wl := w.toList.map Char.toLower
  { s with
    error := none
    word := wl
    displayRaw := disp
    meaning := m
    revealed := List.replicate wl.length false
    guessed := []
    availablePowerUps :=
      if s.mode = Mode.solo then [POOL.getD (rand % POOL.length) PowerUpKind.doublePoints]
      else []
    currentIdx := 0
    winner := none
    result := none
    lives := MAX_LIVES
    phase := Phase.play }

/-- Indices of `word` equal to the guessed letter: the `matchIdx` array
built by the scan loop in `onGuess`. -/
def matchIdx (word : List Char) (ch : Char) : List Nat :=
  ((word.enum).filter (fun p => p.2 == ch)).map Prod.fst

/-- `matchIdx.forEach((i) => (newRev[i] = true))` applied to a copy of
`revealed`. -/
def setTrueAt (rev : List Bool) (idxs : List Nat) : List Bool :=
  idxs.foldl (fun r i => r.set i true) rev

/-- `Object.values(guessed).filter(status => status === "wrong").length`. -/
def wrongGuessCount (g : List (Char × Outcome)) : Nat :=
  (g.filter (fun p => p.2 == Outcome.wrong)).length

/-- The `gameData` object passed to `checkAchievements`. -/
structure GameData where
  won : Bool
  perfect : Bool
  finalScore : Int
  livesRemaining : Int
  deriving DecidableEq, Repr

/-- Conditional push used to mirror `newAchievements.push(...)` guarded by
an `if`. -/
def addIf {α : Type} (c : Prop) [Decidable c] (a : α) : List α :=
  if c then [a] else []

/-- `checkAchievements`: the list `newAchievements` in push order.  `s`
supplies the closure values read by the callback (`streak`,
`perfectStreak`, `achievements`, `lives`, `powerUpsUsed`, `wordsCompleted`,
`doublePointsUsed`, `revealLetterUsed`) — at the moment `onGuess` calls it
these are still the pre-guess committed values.  Conditions nested under
`if (gameData.won)` / `if (gameData.perfect)` in the source appear here as
conjunctions.  Note the source has no branch for `comeback`. -/
def checkAchievements (s : GameState) (gd : GameData) : List AchievementId :=
  addIf (s.streak = 0 ∧ gd.won = true ∧ AchievementId.firstWin ∉ s.achievements)
    AchievementId.firstWin ++
  addIf (gd.perfect = true ∧ AchievementId.perfectGame ∉ s.achievements)
    AchievementId.perfectGame ++
  addIf (gd.won = true ∧ 5 ≤ s.streak + 1 ∧ AchievementId.streak5 ∉ s.achievements)
    AchievementId.streak5 ++
  addIf (gd.won = true ∧ 10 ≤ s.streak + 1 ∧ AchievementId.streak10 ∉ s.achievements)
    AchievementId.streak10 ++
  addIf (gd.won = true ∧ gd.perfect = true ∧ 3 ≤ s.perfectStreak + 1 ∧
      AchievementId.perfectStreak3 ∉ s.achievements) AchievementId.perfectStreak3 ++
  addIf (gd.won = true ∧ gd.perfect = true ∧ 5 ≤ s.perfectStreak + 1 ∧
      AchievementId.perfectStreak5 ∉ s.achievements) AchievementId.perfectStreak5 ++
  addIf (gd.won = true ∧ gd.perfect = true ∧ 10 ≤ s.perfectStreak + 1 ∧
      AchievementId.perfectStreak10 ∉ s.achievements) AchievementId.perfectStreak10 ++
  addIf (500 ≤ gd.finalScore ∧ AchievementId.highScore ∉ s.achievements)
    AchievementId.highScore ++
  addIf (1000 ≤ gd.finalScore ∧ AchievementId.megaScore ∉ s.achievements)
    AchievementId.megaScore ++
  addIf (gd.won = true ∧ s.lives = MAX_LIVES ∧ AchievementId.speedster ∉ s.achievements)
    AchievementId.speedster ++
  addIf (gd.won = true ∧ s.lives = 1 ∧ AchievementId.survivor ∉ s.achievements)
    AchievementId.survivor ++
  addIf (10 ≤ s.powerUpsUsed ∧ AchievementId.powerMaster ∉ s.achievements)
    AchievementId.powerMaster ++
  addIf (gd.won = true ∧ 25 ≤ s.wordsCompleted + 1 ∧ AchievementId.wordsmith ∉ s.achievements)
    AchievementId.wordsmith ++
  addIf (gd.won = true ∧ 100 ≤ s.wordsCompleted + 1 ∧ AchievementId.scholar ∉ s.achievements)
    AchievementId.scholar ++
  addIf (5 ≤ s.doublePointsUsed ∧ AchievementId.multiplierMania ∉ s.achievements)
    AchievementId.multiplierMania ++
  addIf (10 ≤ s.revealLetterUsed ∧ AchievementId.detective ∉ s.achievements)
    AchievementId.detective

/-- The state effects of `checkAchievements`: if any new achievements were
found, append them to the committed `achievements` and show the first one.
`pre` carries the closure values, `cur` the state queued so far. -/
def applyAchievements (pre cur : GameState) (gd : GameData) : GameState :=
  let newA := checkAchievements pre gd
  if newA = [] then cur
  else { cur with achievements := cur.achievements ++ newA, showAchievement := newA.head? }

/-- The `onGuess` handler.  `rand` models the `Math.random()` index used by
the reward grant on a solo win.  Stale-closure/batching points mirrored
from the source: the solve branch computes `finalScore = score + 20*lives`
from the values captured at event start and `setScore(finalScore)`
overwrites the `+10·matchCount` just queued; `wrongGuesses` is counted on
the pre-guess `guessed`; `checkAchievements` reads pre-guess values. -/
def onGuess (rand : Nat) (s : GameState) (raw : Char) : GameState :=
  if s.phase ≠ Phase.play ∨ s.word = [] then s else
  let ch := raw.toLower
  if (s.guessed.lookup ch).isSome = true then s else
  let mi := matchIdx s.word ch
  if mi ≠ [] then
    let newRev := setTrueAt s.revealed mi
    let allRevealed := newRev.all id
    let s1 := { s with revealed := newRev, guessed := s.guessed ++ [(ch, Outcome.correct)] }
    let s2 := if s.mode = Mode.solo then { s1 with score := s1.score + 10 * mi.length } else s1
    if allRevealed = true then
      if s.mode = Mode.solo then
        let finalScore := s.score + 20 * s.lives
        let s3 := { s2 with score := finalScore, result := some SoloResult.win,
                            streak := s.streak + 1 }
        let isPerfect := wrongGuessCount s.guessed == 0
        let s4 :=
          if isPerfect = true then
            { s3 with perfectStreak := s3.perfectStreak + 1, score := s3.score + 100 }
          else { s3 with perfectStreak := 0 }
        let s5 := { s4 with wordsCompleted := s4.wordsCompleted + 1, phase := Phase.finished }
        let gd : GameData :=
          { won := true, perfect := isPerfect,
            finalScore := finalScore + (if isPerfect = true then 100 else 0),
            livesRemaining := s.lives }
        let s6 := applyAchievements s s5 gd
        let remaining := POOL.filter (fun p => !(s.availablePowerUps.contains p))
        if remaining = [] then s6
        else { s6 with availablePowerUps :=
                 s.availablePowerUps ++
                   [remaining.getD (rand % remaining.length) PowerUpKind.doublePoints] }
      else
        { s2 with
          winner := some ((s.players[s.currentIdx]?).getD
            ("Player " ++ toString (s.currentIdx + 1))),
          phase := Phase.finished }
    else s2
  else
    let s1 := { s with guessed := s.guessed ++ [(ch, Outcome.wrong)] }
    if s.mode = Mode.solo then
      let nextLives := s.lives - 1
      let s2 := { s1 with lives := nextLives }
      if nextLives ≤ 0 then
        let s3 := { s2 with
          revealed := List.replicate s.word.length true
          result := some SoloResult.lose
          streak := 0
          perfectStreak := 0
          phase := Phase.finished }
        applyAchievements s s3
          { won := false, perfect := false, finalScore := s.score, livesRemaining := nextLives }
      else s2
    else
      { s1 with currentIdx :=
          if s.players.length ≠ 0 then (s.currentIdx + 1) % s.players.length
          else s.currentIdx }

/-- `handlePowerUp`: queue the power-up and filter it out of the available
list (no availability or phase check in the handler itself). -/
def handlePowerUp (s : GameState) (k : PowerUpKind) : GameState :=
  { s with powerUp := some k, availablePowerUps := s.availablePowerUps.filter (fun p => p != k) }

/-- One run of the power-up `useEffect` body.  `powerUpsUsed` is bumped
before the kind branches.  The `doublePoints` branch returns early with the
timer cleanup, so `setPowerUp(null)` is not reached on that path; the other
branches fall through to it. -/
def runPowerUpEffect (s : GameState) : GameState :=
  match s.powerUp with
  | none => s
  | some k =>
    let s1 := { s with powerUpsUsed := s.powerUpsUsed + 1 }
    match k with
    | PowerUpKind.doublePoints =>
      { s1 with scoreMultiplier := 2, doublePointsUsed := s1.doublePointsUsed + 1 }
    | PowerUpKind.revealLetter =>
      let s2 := { s1 with revealLetterUsed := s1.revealLetterUsed + 1 }
      let s3 :=
        match s.revealed.findIdx? (fun r => !r) with
        | some i => { s2 with revealed := s2.revealed.set i true }
        | none => s2
      { s3 with powerUp := none }
    | PowerUpKind.extraLife =>
      { s1 with lives := s1.lives + 1, powerUp := none }

/-- Clicking a power-up button: the handler queues the kind and the effect
applies it. -/
def activatePowerUp (s : GameState) (k : PowerUpKind) : GameState :=
  runPowerUpEffect (handlePowerUp s k)

/-- The 30-second `setTimeout` of the DoublePoints effect firing. -/
def multiplierTimerFires (s : GameState) : GameState :=
  { s with scoreMultiplier := 1 }

/-- The Reset button's `onClick`.  Note which hooks it does not touch:
`perfectStreak`, `scoreMultiplier`, `powerUpsUsed`, `wordsCompleted`,
`doublePointsUsed`, `revealLetterUsed`, `achievements`, `showAchievement`,
`powerUp`, `error`, `mode`, `wordSource`. -/
def resetGame (s : GameState) : GameState :=
  { s with
    phase := Phase.setup
    players := []
    nameInput := ""
    soloName := ""
    guessed := []
    revealed := []
    winner := none
    result := none
    word := []
    meaning := ""
    displayRaw := ""
    currentIdx := 0
    lives := MAX_LIVES
    availablePowerUps := []
    score := 0
    streak := 0 }

/-! ### Helper lemmas -/

theorem mem_addIf {α : Type} {c : Prop} [Decidable c] {a x : α} :
    a ∈ addIf c x ↔ c ∧ a = x := by
  unfold addIf
  split <;> simp_all

theorem applyAchievements_phase (pre cur : GameState) (gd : GameData) :
    (applyAchievements pre cur gd).phase = cur.phase := by
  simp only [applyAchievements]
  split <;> rfl

theorem applyAchievements_result (pre cur : GameState) (gd : GameData) :
    (applyAchievements pre cur gd).result = cur.result := by
  simp only [applyAchievements]
  split <;> rfl

theorem applyAchievements_winner (pre cur : GameState) (gd : GameData) :
    (applyAchievements pre cur gd).winner = cur.winner := by
  simp only [applyAchievements]
  split <;> rfl

theorem applyAchievements_revealed (pre cur : GameState) (gd : GameData) :
    (applyAchievements pre cur gd).revealed = cur.revealed := by
  simp only [applyAchievements]
  split <;> rfl

theorem applyAchievements_currentIdx (pre cur : GameState) (gd : GameData) :
    (applyAchievements pre cur gd).currentIdx = cur.currentIdx := by
  simp only [applyAchievements]
  split <;> rfl

theorem applyAchievements_score (pre cur : GameState) (gd : GameData) :
    (applyAchievements pre cur gd).score = cur.score := by
  simp only [applyAchievements]
  split <;> rfl

theorem applyAchievements_lives (pre cur : GameState) (gd : GameData) :
    (applyAchievements pre cur gd).lives = cur.lives := by
  simp only [applyAchievements]
  split <;> rfl

theorem findIdx_none_of_all (l : List Bool) (h : l.all id = true) :
    l.findIdx? (fun r => !r) = none := by
  rw [List.findIdx?_eq_none_iff]
  intro x hx
  have hx' := List.all_eq_true.mp h x hx
  simp_all

theorem findIdx_first_false (l : List Bool) (i : Nat)
    (hi : l[i]? = some false) (hj : ∀ j ∈ List.range i, l[j]? = some true) :
    l.findIdx? (fun r => !r) = some i := by
  induction l generalizing i with
  | nil => simp at hi
  | cons b t ih =>
    cases i with
    | zero =>
      simp only [List.getElem?_cons_zero, Option.some.injEq] at hi
      subst hi
      simp [List.findIdx?_cons]
    | succ n =>
      have hb : b = true := by
        have h0 := hj 0 (by simp)
        simpa using h0
      subst hb
      rw [List.findIdx?_cons]
      simp only [Bool.not_true, Bool.false_eq_true, if_false]
      rw [List.findIdx?_succ]
      have ht := ih n (by simpa using hi) (fun j hjr => by
        have hjm : j + 1 ∈ List.range (n + 1) := by
          simp only [List.mem_range] at hjr ⊢
          omega
        have := hj (j + 1) hjm
        simpa using this)
      rw [ht]
      rfl

theorem set_true_preserve (l : List Bool) (j i : Nat) (h : l[i]? = some true) :
    (l.set j true)[i]? = some true := by
  by_cases hij : j = i
  · subst hij
    exact List.getElem?_set_self (List.getElem?_eq_some_iff.mp h).1
  · rw [List.getElem?_set_ne hij]
    exact h

theorem setTrueAt_preserve (idxs : List Nat) (l : List Bool) (i : Nat)
    (h : l[i]? = some true) : (setTrueAt l idxs)[i]? = some true := by
  induction idxs generalizing l with
  | nil => exact h
  | cons j js ih => exact ih (l.set j true) (set_true_preserve l j i h)

/-! ### Concrete states used by the claim theorems -/

/-- A solo round on word `"aba"`, holding a DoublePoints power-up. -/
def c1Base : GameState :=
  { initialState with
    mode := Mode.solo
    phase := Phase.play
    word := ['a', 'b', 'a']
    revealed := [false, false, false]
    availablePowerUps := [PowerUpKind.doublePoints] }

/-- `c1Base` right after activating DoublePoints: `scoreMultiplier = 2`. -/
def c1State : GameState := activatePowerUp c1Base PowerUpKind.doublePoints

/-- Fresh solo session started on the word `"cat"`. -/
def c2Start : GameState :=
  startGame { initialState with mode := Mode.solo } "cat" "a feline" "cat" 0

/-- The state after guessing `c`, `a`, `t` in order from `c2Start`. -/
def c2Final : GameState := onGuess 0 (onGuess 0 (onGuess 0 c2Start 'c') 'a') 't'

/-- Solo session on `"ab"` (starting power-up RevealLetter) after the
correct guess `a`: `revealed = [true, false]`. -/
def c3Mid : GameState :=
  onGuess 0 (startGame { initialState with mode := Mode.solo } "ab" "a word" "ab" 1) 'a'

/-- `c3Mid` after activating RevealLetter, which reveals the last
unrevealed position. -/
def c3After : GameState := activatePowerUp c3Mid PowerUpKind.revealLetter

/-- A one-letter solo round about to be solved by its first guess. -/
def c3wState : GameState :=
  { initialState with
    mode := Mode.solo
    phase := Phase.play
    word := ['a']
    revealed := [false] }

/-- A mid-round solo state whose `availablePowerUps` set is empty. -/
def c5State : GameState :=
  { initialState with
    mode := Mode.solo
    phase := Phase.play
    word := ['a', 'b']
    revealed := [false, false] }

/-- A finished solo session with nonzero cumulative meta-state. -/
def c6State : GameState :=
  { initialState with
    mode := Mode.solo
    phase := Phase.finished
    word := ['c', 'a', 't']
    revealed := [true, true, true]
    guessed := [('c', Outcome.correct), ('a', Outcome.correct), ('t', Outcome.correct)]
    result := some SoloResult.win
    score := 300
    streak := 2
    perfectStreak := 3
    scoreMultiplier := 2
    powerUpsUsed := 4
    wordsCompleted := 7
    doublePointsUsed := 2
    revealLetterUsed := 1 }

/-- A 3-player multiplayer round on `"ab"`, player 0 to move. -/
def c7State : GameState :=
  { initialState with
    mode := Mode.multi
    phase := Phase.play
    players := ["alice", "bob", "carol"]
    word := ['a', 'b']
    revealed := [false, false] }

/-- A playing state whose word is fully revealed. -/
def c8Full : GameState :=
  { initialState with
    mode := Mode.solo
    phase := Phase.play
    word := ['a', 'b']
    revealed := [true, true] }

/-- A playing state with lowest unrevealed position 1. -/
def c8Part : GameState :=
  { initialState with
    mode := Mode.solo
    phase := Phase.play
    word := ['c', 'a', 't']
    revealed := [true, false, false] }

/-- A solo state where `a` was already guessed (correct). -/
def c9State : GameState :=
  { initialState with
    mode := Mode.solo
    phase := Phase.play
    word := ['a', 'b']
    revealed := [true, false]
    guessed := [('a', Outcome.correct)]
    score := 10 }

/-- A solo state with position 0 revealed, used for monotonicity. -/
def c10State : GameState :=
  { initialState with
    mode := Mode.solo
    phase := Phase.play
    word := ['a', 'b']
    revealed := [true, false]
    guessed := [('a', Outcome.correct)]
    score := 10 }

/-! ### Claim theorems -/

/-- C1: the claim says a correct guess adds `10 * matchCount *
multiplier.value`, so `matchCount = 2` at multiplier 2 should add 40.  In
the code `setScore((s) => s + 10 * matchIdx.length)` never consults
`scoreMultiplier` (it is set by DoublePoints and displayed, but unused in
scoring), contradicting the power-up's own description "Double your score
for 30 seconds": with DoublePoints active and a two-match guess the score
rises by 20, not 40. -/
theorem C1_multiplier_unused_in_scoring :
    c1State.scoreMultiplier = 2 ∧
    matchIdx c1State.word 'a' = [0, 2] ∧
    (setTrueAt c1State.revealed (matchIdx c1State.word 'a')).all id = false ∧
    (onGuess 0 c1State 'a').score = c1State.score + 20 ∧
    ¬((onGuess 0 c1State 'a').score = c1State.score + 40) := by
  decide

/-- C2: for word "cat" guessed `c`,`a`,`t` with lives 6 and multiplier 1,
the claim (and the repository's own README and in-game help: +10 per
letter, +20 per remaining life, +100 perfect) demands a final score of
250.  The code's solve branch computes `finalScore = score + 20 * lives`
from the score captured before the solving guess and overwrites the
queued `+10·matchCount` with it, yielding 240.  `perfectStreak` does
become 1 as claimed. -/
theorem C2_win_scenario_score :
    c2Final.result = some SoloResult.win ∧
    c2Final.lives = 6 ∧
    c2Final.streak = 1 ∧
    c2Final.perfectStreak = 1 ∧
    c2Final.score = 240 ∧
    ¬(c2Final.score = 250) := by
  decide

/-- C4: `checkAchievements` never emits `comeback` for any inputs — the
achievement is described in the `ACHIEVEMENTS` table ("Win after being
down to 1 life") but no branch of the evaluation function awards it, and
no hook tracks the minimum lives reached during a round. -/
theorem C4_comeback_never_awarded (s : GameState) (gd : GameData) :
    decide (AchievementId.comeback ∈ checkAchievements s gd) = false := by
  rw [decide_eq_false_iff_not]
  intro h
  simp only [checkAchievements, List.mem_append, mem_addIf] at h
  simp at h

/-- C5 counterexample: with `availablePowerUps = []`, activating ExtraLife
is not rejected — the handler queues it unconditionally and the effect
applies it, so lives and the usage counter still change. -/
theorem C5_counterexample :
    c5State.availablePowerUps = [] ∧
    (activatePowerUp c5State PowerUpKind.extraLife).lives = c5State.lives + 1 ∧
    (activatePowerUp c5State PowerUpKind.extraLife).powerUpsUsed
      = c5State.powerUpsUsed + 1 ∧
    ¬(activatePowerUp c5State PowerUpKind.extraLife = c5State) := by
  decide

/-- C5 (amended): activating a power-up always removes the kind from
`availablePowerUps` (a no-op removal when it was not present) and
increments `powerUpsUsed` and the kind's own counter exactly once per
handler-plus-effect run; activation of a kind not in `availablePowerUps`
is not guarded anywhere in the handler, so it still applies the effect.
DoublePoints additionally leaves the pending `powerUp` set (its effect
branch returns early with the timer cleanup, skipping
`setPowerUp(null)`). -/
theorem C5_amended_activation (s : GameState) (k : PowerUpKind) :
    (activatePowerUp s k).availablePowerUps
      = s.availablePowerUps.filter (fun p => p != k) ∧
    (activatePowerUp s k).powerUpsUsed = s.powerUpsUsed + 1 ∧
    (activatePowerUp s k).doublePointsUsed
      = s.doublePointsUsed + (if k = PowerUpKind.doublePoints then 1 else 0) ∧
    (activatePowerUp s k).revealLetterUsed
      = s.revealLetterUsed + (if k = PowerUpKind.revealLetter then 1 else 0) ∧
    (activatePowerUp s k).powerUp
      = (if k = PowerUpKind.doublePoints then some PowerUpKind.doublePoints else none) := by
  cases k with
  | doublePoints => simp [activatePowerUp, handlePowerUp, runPowerUpEffect]
  | revealLetter =>
    cases hf : s.revealed.findIdx? (fun r => !r) <;>
      simp [activatePowerUp, handlePowerUp, runPowerUpEffect, hf]
  | extraLife => simp [activatePowerUp, handlePowerUp, runPowerUpEffect]

/-- C6 counterexample: reset does not clear everything — `perfectStreak`,
the usage counters and the score multiplier survive, contradicting the
claim that no field of the pre-reset session is carried over. -/
theorem C6_counterexample :
    (resetGame c6State).perfectStreak = 3 ∧
    (resetGame c6State).powerUpsUsed = 4 ∧
    (resetGame c6State).doublePointsUsed = 2 ∧
    (resetGame c6State).revealLetterUsed = 1 ∧
    (resetGame c6State).wordsCompleted = 7 ∧
    (resetGame c6State).scoreMultiplier = 2 := by
  decide

/-- C6 (amended): reset returns to Setup and clears the phase, players,
name inputs, round fields (word, display, meaning, revealed, guessed),
winner, result, turn index, lives, available power-ups, score and streak —
but it preserves `perfectStreak`, the usage counters (`powerUpsUsed`,
`doublePointsUsed`, `revealLetterUsed`), `wordsCompleted`,
`scoreMultiplier`, `achievements`, `mode` and the word-source choice. -/
theorem C6_amended_reset (s : GameState) :
    (resetGame s).phase = Phase.setup ∧
    (resetGame s).players = [] ∧
    (resetGame s).nameInput = "" ∧
    (resetGame s).soloName = "" ∧
    (resetGame s).guessed = [] ∧
    (resetGame s).revealed = [] ∧
    (resetGame s).winner = none ∧
    (resetGame s).result = none ∧
    (resetGame s).word = [] ∧
    (resetGame s).meaning = "" ∧
    (resetGame s).displayRaw = "" ∧
    (resetGame s).currentIdx = 0 ∧
    (resetGame s).lives = MAX_LIVES ∧
    (resetGame s).availablePowerUps = [] ∧
    (resetGame s).score = 0 ∧
    (resetGame s).streak = 0 ∧
    (resetGame s).perfectStreak = s.perfectStreak ∧
    (resetGame s).powerUpsUsed = s.powerUpsUsed ∧
    (resetGame s).doublePointsUsed = s.doublePointsUsed ∧
    (resetGame s).revealLetterUsed = s.revealLetterUsed ∧
    (resetGame s).wordsCompleted = s.wordsCompleted ∧
    (resetGame s).scoreMultiplier = s.scoreMultiplier ∧
    (resetGame s).achievements = s.achievements ∧
    (resetGame s).mode = s.mode ∧
    (resetGame s).wordSource = s.wordSource := by
  repeat first
  | constructor
  | rfl

/-- C9: guessing a letter already present in `guessedLetters` is a strict
no-op — `onGuess` returns the state unchanged (no field mutated, no error
recorded), for every state and letter. -/
theorem C9_repeated_guess_noop (rand : Nat) (s : GameState) (ch : Char)
    (h : (s.guessed.lookup ch.toLower).isSome = true) :
    onGuess rand s ch = s := by
  unfold onGuess
  split
  · rfl
  · simp [h]

/-- C9 witness: guessing `a` twice on the word "ab" leaves the state
after the second guess identical. -/
theorem C9_witness : onGuess 0 c9State 'a' = c9State :=
  C9_repeated_guess_noop 0 c9State 'a' (by decide)

/-- C3 counterexample: from a reachable solo state on "ab" with only `b`
unrevealed, activating RevealLetter makes every `revealed` entry true, yet
the round is not marked Solved — the phase stays Playing and `result` and
`winner` stay unset, deferring the win to a later correct guess.  The
power-up effect never runs the all-revealed check. -/
theorem C3_counterexample :
    c3Mid.phase = Phase.play ∧
    c3Mid.revealed = [true, false] ∧
    c3After.revealed = [true, true] ∧
    c3After.phase = Phase.play ∧
    c3After.result = none ∧
    c3After.winner = none := by
  decide

/-- C3 (amended): immediately after a guess with a Correct outcome made in
the Playing phase, the round is Solved (solo `result = win`, multiplayer
`winner` set, phase Finished) exactly when every `revealed` entry is true;
the equivalence is not maintained by RevealLetter activations (which can
reveal the final position without finishing the round) nor by the solo
loss force-reveal (all entries true with `result = lose`). -/
theorem C3_amended (rand : Nat) (s : GameState) (ch : Char)
    (hp : s.phase = Phase.play) (hw : s.word ≠ [])
    (hlow : ch.toLower = ch)
    (hg : s.guessed.lookup ch = none)
    (hm : matchIdx s.word ch ≠ []) :
    ((onGuess rand s ch).revealed.all id = true ↔
      ((onGuess rand s ch).phase = Phase.finished ∧
       (s.mode = Mode.solo → (onGuess rand s ch).result = some SoloResult.win) ∧
       (s.mode = Mode.multi → (onGuess rand s ch).winner.isSome = true))) := by
  have hguard : ¬(s.phase ≠ Phase.play ∨ s.word = []) := by simp [hp, hw]
  cases hall : (setTrueAt s.revealed (matchIdx s.word ch)).all id <;>
  cases hmo : s.mode <;>
  simp [onGuess, hguard, hlow, hg, hm, hall, hmo, hp, hw,
        apply_ite GameState.revealed, apply_ite GameState.phase,
        apply_ite GameState.result, apply_ite GameState.winner,
        applyAchievements_phase, applyAchievements_result,
        applyAchievements_winner, applyAchievements_revealed]

/-- C3 witness: the amended equivalence at a concrete solving guess — the
first guess on the one-letter word "a" finishes the round as a win. -/
theorem C3_witness :
    (onGuess 0 c3wState 'a').phase = Phase.finished ∧
    (onGuess 0 c3wState 'a').result = some SoloResult.win := by
  have h := (C3_amended 0 c3wState 'a' (by decide) (by decide) (by decide) (by decide)
      (by decide)).mp (by decide)
  exact ⟨h.1, h.2.1 rfl⟩

/-- C7: multiplayer turn rotation — a guess with no matches advances
`currentPlayerIndex` to `(i + 1) mod players.length` and keeps playing, a
guess with matches keeps the index (extra turn), and the guess revealing
the last position freezes the index, sets `winner = players[i]` and
finishes the round. -/
theorem C7_turn_rotation (rand : Nat) (s : GameState) (ch : Char)
    (hmo : s.mode = Mode.multi) (hp : s.phase = Phase.play) (hw : s.word ≠ [])
    (hlow : ch.toLower = ch) (hg : s.guessed.lookup ch = none)
    (hpl : s.players.length ≠ 0) :
    (matchIdx s.word ch = [] →
      (onGuess rand s ch).currentIdx = (s.currentIdx + 1) % s.players.length ∧
      (onGuess rand s ch).phase = Phase.play) ∧
    (matchIdx s.word ch ≠ [] →
      (onGuess rand s ch).currentIdx = s.currentIdx) ∧
    (matchIdx s.word ch ≠ [] →
      (setTrueAt s.revealed (matchIdx s.word ch)).all id = true →
      (onGuess rand s ch).winner =
        some ((s.players[s.currentIdx]?).getD ("Player " ++ toString (s.currentIdx + 1))) ∧
      (onGuess rand s ch).phase = Phase.finished ∧
      (onGuess rand s ch).currentIdx = s.currentIdx) := by
  have hguard : ¬(s.phase ≠ Phase.play ∨ s.word = []) := by simp [hp, hw]
  refine ⟨?_, ?_, ?_⟩
  · intro hmi
    simp [onGuess, hguard, hlow, hg, hmi, hmo, hp, hw, hpl]
  · intro hmi
    simp [onGuess, hguard, hlow, hg, hmi, hmo, hp, hw,
          apply_ite GameState.currentIdx]
  · intro hmi hall
    simp [onGuess, hguard, hlow, hg, hmi, hall, hmo, hp, hw]

/-- C7 witness: with 3 players, player 0 guessing the absent letter `z`
passes the turn to player 1; player 1 then guessing the correct letter `a`
keeps the index at 1. -/
theorem C7_witness :
    (onGuess 0 c7State 'z').currentIdx = 1 ∧
    (onGuess 0 (onGuess 0 c7State 'z') 'a').currentIdx = 1 := by
  constructor
  · exact ((C7_turn_rotation 0 c7State 'z' (by decide) (by decide) (by decide)
      (by decide) (by decide) (by decide)).1 (by decide)).1
  · have h := (C7_turn_rotation 0 (onGuess 0 c7State 'z') 'a' (by decide) (by decide)
      (by decide) (by decide) (by decide) (by decide)).2.1 (by decide)
    rw [h]
    decide

/-- C8: activating RevealLetter reveals exactly the unrevealed position of
lowest index (`revealed.findIndex(r => !r)`), deterministically; when every
position is already revealed it changes no `revealed` entry. -/
theorem C8_reveal_letter (s : GameState) :
    (s.revealed.all id = true →
      (activatePowerUp s PowerUpKind.revealLetter).revealed = s.revealed) ∧
    (∀ i, s.revealed[i]? = some false →
      (∀ j ∈ List.range i, s.revealed[j]? = some true) →
      (activatePowerUp s PowerUpKind.revealLetter).revealed = s.revealed.set i true) := by
  constructor
  · intro hall
    simp [activatePowerUp, handlePowerUp, runPowerUpEffect,
          findIdx_none_of_all _ hall]
  · intro i hi hj
    simp [activatePowerUp, handlePowerUp, runPowerUpEffect,
          findIdx_first_false _ _ hi hj]

/-- C8 witness: on `revealed = [true, true]` the activation changes
nothing; on `revealed = [true, false, false]` it reveals exactly
position 1, the lowest unrevealed index. -/
theorem C8_witness :
    (activatePowerUp c8Full PowerUpKind.revealLetter).revealed = c8Full.revealed ∧
    (activatePowerUp c8Part PowerUpKind.revealLetter).revealed = [true, true, false] := by
  refine ⟨(C8_reveal_letter c8Full).1 (by decide), ?_⟩
  have h := (C8_reveal_letter c8Part).2 1 (by decide) (by decide)
  rw [h]
  decide

/-- C10: within a round the `revealed` mask is monotone — no guess (correct,
wrong, or the loss force-reveal) and no power-up activation ever turns a
`true` entry back to `false`, given the round invariant
`revealed.length = word.length`. -/
theorem C10_revealed_monotone (rand : Nat) (s : GameState) (ch : Char) (k : PowerUpKind)
    (i : Nat) (hlen : s.revealed.length = s.word.length)
    (h : s.revealed[i]? = some true) :
    (onGuess rand s ch).revealed[i]? = some true ∧
    (activatePowerUp s k).revealed[i]? = some true := by
  have hi : i < s.revealed.length := (List.getElem?_eq_some_iff.mp h).1
  constructor
  · by_cases h1 : s.phase ≠ Phase.play ∨ s.word = []
    · simpa [onGuess, h1] using h
    · by_cases h2 : (s.guessed.lookup ch.toLower).isSome = true
      · simpa [onGuess, h1, h2] using h
      · by_cases h3 : matchIdx s.word ch.toLower = []
        · by_cases h4 : s.mode = Mode.solo
          · by_cases h5 : s.lives - 1 ≤ 0
            · simp [onGuess, h1, h2, h3, h4, h5, applyAchievements_revealed,
                    List.getElem?_replicate]
              omega
            · simpa [onGuess, h1, h2, h3, h4, h5] using h
          · simpa [onGuess, h1, h2, h3, h4] using h
        · have hpres := setTrueAt_preserve (matchIdx s.word ch.toLower) s.revealed i h
          simp [onGuess, h1, h2, h3, apply_ite GameState.revealed,
                applyAchievements_revealed, hpres]
  · cases k with
    | doublePoints => simpa [activatePowerUp, handlePowerUp, runPowerUpEffect] using h
    | revealLetter =>
      cases hf : s.revealed.findIdx? (fun r => !r) with
      | none => simpa [activatePowerUp, handlePowerUp, runPowerUpEffect, hf] using h
      | some j =>
        have hset := set_true_preserve s.revealed j i h
        simpa [activatePowerUp, handlePowerUp, runPowerUpEffect, hf] using hset
    | extraLife => simpa [activatePowerUp, handlePowerUp, runPowerUpEffect] using h

/-- C10 witness: monotonicity at a concrete state — position 0, already
revealed, stays revealed through a wrong guess and through a RevealLetter
activation. -/
theorem C10_witness :
    (onGuess 0 c10State 'b').revealed[0]? = some true ∧
    (activatePowerUp c10State PowerUpKind.revealLetter).revealed[0]? = some true :=
  C10_revealed_monotone 0 c10State 'b' PowerUpKind.revealLetter 0 (by decide) (by decide)

end Capybara
